import Mathlib

/-!
Shallow embedding of the retention/cleanup engine of `watch.py`:
class `RollingCleanup` (scan loop, deletion retry, worker lifecycle) together
with the pieces of `ScreenCapture` state it shares (the stop event and the
two `file_lock` objects, and the capture / resource-monitor loop conditions).
-/

/-- The image-extension allow list checked by the sweep:
`entry.name.lower().endswith((".jpg", ".jpeg", ".png", ".bmp", ".webp"))`
(`watch.py:112`). -/
def imageExtensions : List String := [".jpg", ".jpeg", ".png", ".bmp", ".webp"]

/-- ASCII lower-casing of one character, as Python's `str.lower` acts on the
ASCII file names the capture loop produces (`screenshot_<timestamp>.<ext>`,
`watch.py:1144`). -/
def lowerChar (c : Char) : Char :=
  if 65 ≤ c.toNat ∧ c.toNat ≤ 90 then Char.ofNat (c.toNat + 32) else c

/-- The image-name test of `watch.py:112`:
`entry.name.lower().endswith(tuple of imageExtensions)`. -/
def isImageName (name : String) : Bool :=
  imageExtensions.any (fun ext => ext.data.isSuffixOf (name.data.map lowerChar))

/-- Outcome of one `os.remove` call inside `_safe_delete_file` (`watch.py:163`).
`notFound` is `FileNotFoundError` (the file no longer exists at attempt time);
`ioError` is any other `OSError` / `PermissionError` (locked file, permission
denied, or `os.remove` on a directory).  The except clause at `watch.py:165`
catches all of these alike. -/
inductive RemoveResult where
  | removed
  | notFound
  | ioError
  deriving DecidableEq

/-- Environment one `_safe_delete_file` call runs in: what the combined stop
check at the head of attempt `k` reads
(`not self.is_running or self.stop_event.is_set()`, `watch.py:158`), whether the
inter-attempt `stop_event.wait(timeout=retry_delay)` after failed attempt `k`
returns true (`watch.py:169`), and what the `os.remove` of attempt `k` does. -/
structure DeleteEnv where
  stopCheck : Nat → Bool
  waitStop : Nat → Bool
  removeRes : Nat → RemoveResult

/-- The `max_retries` default of `_safe_delete_file` (`watch.py:154`). -/
def maxRetries : Nat := 3

/-- The `retry_delay` default (seconds) of `_safe_delete_file` (`watch.py:154`). -/
def retryDelay : Nat := 1

/-- The retry loop `for attempt in range(max_retries)` of `_safe_delete_file`
(`watch.py:156`).  `fuel` is `max_retries - attempt`.  Returns the outcome
(`true` = the file was removed) paired with the number of `os.remove` calls
actually made. -/
def safeDeleteRun (env : DeleteEnv) : Nat → Nat → Bool × Nat
  | 0, _ => (false, 0)
  | fuel + 1, attempt =>
    if env.stopCheck attempt then (false, 0)
    else
      match env.removeRes attempt with
      | .removed => (true, 1)
      | _ =>
        if attempt + 1 < maxRetries then
          if env.waitStop attempt then (false, 1)
          else
            let r := safeDeleteRun env fuel (attempt + 1)
            (r.1, r.2 + 1)
        else (false, 1)

/-- `_safe_delete_file` (`watch.py:154`): `true` iff the file was removed. -/
def safe_delete_file (env : DeleteEnv) : Bool :=
  (safeDeleteRun env maxRetries 0).1

/-- How many `os.remove` attempts one `_safe_delete_file` call makes. -/
def deleteAttempts (env : DeleteEnv) : Nat :=
  (safeDeleteRun env maxRetries 0).2

/-- Log lines `_perform_rolling_cleanup` emits (`watch.py:100-149`), one
constructor per logging statement in the source. -/
inductive LogEvent where
  | infoStart
  | debugSkipNonImage (name : String)
  | debugDeleted (name : String)
  | warnDeleteFailed (name : String)
  | warnStatError (name : String)
  | errorScanFailed
  | infoSummary (deleted failed : Nat)
  | debugNothingToDelete
  deriving DecidableEq

/-- One directory entry as a sweep observes it: `os.scandir` yields the name
and whether the entry is a directory; `entry.stat().st_mtime` (`watch.py:122`)
yields `statRes` (`none` models the `OSError`/`FileNotFoundError` handled at
`watch.py:138`); `delEnv` drives the `_safe_delete_file` call for this entry;
`stopA`, `stopB`, `stopC` are what the three in-loop stop checks read
(`watch.py:108`, `watch.py:117`, `watch.py:135`). -/
structure SweepEntry where
  name : String
  isDir : Bool
  statRes : Option Int
  delEnv : DeleteEnv
  stopA : Bool
  stopB : Bool
  stopC : Bool

/-- Running tallies of the scan loop of `_perform_rolling_cleanup`
(`watch.py:107`): the `deleted_count` / `failed_count` counters, the names
actually removed from disk, the names whose deletion was attempted
(`_safe_delete_file` invoked), and the log output. -/
structure SweepBody where
  deleted : Nat
  failed : Nat
  deletedNames : List String
  attempted : List String
  logs : List LogEvent
  deriving DecidableEq

/-- Sequencing of two loop segments: counters add, name lists and logs
concatenate in order. -/
def SweepBody.seq (a b : SweepBody) : SweepBody :=
  ⟨a.deleted + b.deleted, a.failed + b.failed, a.deletedNames ++ b.deletedNames,
   a.attempted ++ b.attempted, a.logs ++ b.logs⟩

/-- The `for entry in entries` loop of `_perform_rolling_cleanup`
(`watch.py:107-140`): a true stop check breaks the loop; a non-image name is
skipped with a debug line (`watch.py:112`); a failing `stat` counts one
failure with a warning (`watch.py:138`); an entry strictly older than the
cutoff gets a `_safe_delete_file` call, tallied as deleted or failed
(`watch.py:125-132`); the stop check after the body (`watch.py:135`) breaks
before the remaining entries run. -/
def sweepEntries (cutoff : Int) : List SweepEntry → SweepBody
  | [] => ⟨0, 0, [], [], []⟩
  | e :: rest =>
    if e.stopA then ⟨0, 0, [], [], []⟩
    else if !(isImageName e.name) then
      SweepBody.seq ⟨0, 0, [], [], [.debugSkipNonImage e.name]⟩ (sweepEntries cutoff rest)
    else if e.stopB then ⟨0, 0, [], [], []⟩
    else
      match e.statRes with
      | none =>
        SweepBody.seq ⟨0, 1, [], [], [.warnStatError e.name]⟩ (sweepEntries cutoff rest)
      | some m =>
        let step : SweepBody :=
          if m < cutoff then
            if safe_delete_file e.delEnv then
              ⟨1, 0, [e.name], [e.name], [.debugDeleted e.name]⟩
            else
              ⟨0, 1, [], [e.name], [.warnDeleteFailed e.name]⟩
          else ⟨0, 0, [], [], []⟩
        if e.stopC then step
        else SweepBody.seq step (sweepEntries cutoff rest)

/-- Result of one `_perform_rolling_cleanup` call. -/
structure SweepResult where
  scanFailed : Bool
  deleted : Nat
  failed : Nat
  deletedNames : List String
  attempted : List String
  logs : List LogEvent
  deriving DecidableEq

/-- `_perform_rolling_cleanup` (`watch.py:91`): computes
`cutoff_time = current_time - self.cleanup_age_seconds` (`watch.py:97`), logs
the start line, scans under the worker's own `file_lock` (`watch.py:103`); a
failing `os.scandir` logs a scan error and returns with nothing touched
(`watch.py:141-143`), modelled by `entries = none`; otherwise the entry loop
runs and a summary (or a quieter nothing-to-delete line) is logged
(`watch.py:146-149`). -/
def perform_rolling_cleanup (entries : Option (List SweepEntry))
    (current_time cleanup_age_seconds : Int) : SweepResult :=
  let cutoff := current_time - cleanup_age_seconds
  match entries with
  | none => ⟨true, 0, 0, [], [], [.infoStart, .errorScanFailed]⟩
  | some es =>
    let b := sweepEntries cutoff es
    let tail := if 0 < b.deleted || 0 < b.failed
      then [LogEvent.infoSummary b.deleted b.failed]
      else [LogEvent.debugNothingToDelete]
    ⟨false, b.deleted, b.failed, b.deletedNames, b.attempted,
      .infoStart :: (b.logs ++ tail)⟩

/-- Environment of one iteration of `_cleanup_worker` (`watch.py:60`): whether
the chunked interval wait observes the stop signal (so the loop exits,
`watch.py:68-77`), and the directory and clock state the sweep would see. -/
structure CycleEnv where
  stopDuringWait : Bool
  entries : Option (List SweepEntry)
  current_time : Int
  cleanup_age_seconds : Int

/-- `_cleanup_worker` (`watch.py:60`) over a schedule of cycles: each iteration
waits out the interval, exits if the stop signal appeared, otherwise runs one
sweep and continues.  A sweep never ends the loop: `_perform_rolling_cleanup`
catches its own errors (`watch.py:151`) and the loop body catches the rest
(`watch.py:82`).  Returns the sweep results produced before exit. -/
def cleanup_worker : List CycleEnv → List SweepResult
  | [] => []
  | c :: rest =>
    if c.stopDuringWait then []
    else
      perform_rolling_cleanup c.entries c.current_time c.cleanup_age_seconds ::
        cleanup_worker rest

/-- Joint state of the `RollingCleanup` worker and the `ScreenCapture` threads
that share `stop_event` with it (allocated at `watch.py:220`, handed to the
worker at `watch.py:823`): the worker's `is_running` flag, the shared
`threading.Event`, how many worker threads `start()` has launched, whether the
worker thread object is alive, and the capture / resource-monitor enable flags
(`watch.py:195`, `watch.py:212`). -/
structure SystemState where
  is_running : Bool
  stopEventSet : Bool
  threadsStarted : Nat
  threadAlive : Bool
  is_capturing : Bool
  monitorEnabled : Bool
  deriving DecidableEq

/-- `RollingCleanup.start` (`watch.py:28`): returns at once when already
running; otherwise sets `is_running`, clears the shared stop event
(`watch.py:35`), and launches the worker thread (`watch.py:36-37`). -/
def RollingCleanup.start (s : SystemState) : SystemState :=
  if s.is_running then s
  else ⟨true, false, s.threadsStarted + 1, true, s.is_capturing, s.monitorEnabled⟩

/-- `RollingCleanup.stop` (`watch.py:41`): unconditionally clears `is_running`,
sets the shared stop event (`watch.py:45`), and joins the worker thread with a
1 s timeout when it is alive (`watch.py:47-51`); `joinExits` says whether the
join saw the thread end.  The code has no already-stopped guard. -/
def RollingCleanup.stop (joinExits : Bool) (s : SystemState) : SystemState :=
  ⟨false, true, s.threadsStarted, s.threadAlive && !joinExits,
   s.is_capturing, s.monitorEnabled⟩

/-- Loop condition of the capture thread (`watch.py:1109`):
`while self.is_capturing and not self.stop_event.is_set()`. -/
def captureLoopRuns (s : SystemState) : Bool :=
  s.is_capturing && !s.stopEventSet

/-- Loop condition of the resource monitor (`watch.py:947`):
`while self.resource_monitor_enabled.get() and not self.stop_event.is_set()`. -/
def resourceMonitorRuns (s : SystemState) : Bool :=
  s.monitorEnabled && !s.stopEventSet

/-- Allocation of a fresh synchronization object (`threading.Lock()` /
`threading.Event()`): returns the new object's identity and the next fresh
counter. -/
def newSyncObject (c : Nat) : Nat × Nat := (c, c + 1)

/-- Identities of the synchronization objects the program builds. -/
structure AppSyncObjects where
  scFileLock : Nat
  scStopEvent : Nat
  rcFileLock : Nat
  rcStopEvent : Nat
  deriving DecidableEq

/-- Construction order of the synchronization objects:
`ScreenCapture.__init__` allocates `self.file_lock` (`watch.py:217`) and
`self.stop_event` (`watch.py:220`); `RollingCleanup.__init__` stores the
`stop_event` handed to it (`watch.py:23`, call site `watch.py:820-825`) but
allocates its own fresh `self.file_lock = threading.Lock()` (`watch.py:26`). -/
def constructApp : AppSyncObjects :=
  let a := newSyncObject 0
  let b := newSyncObject a.2
  let c := newSyncObject b.2
  ⟨a.1, b.1, c.1, b.1⟩

/-- The lock the producer acquires before writing a captured file
(`with self.file_lock`, `watch.py:1148`, inside `ScreenCapture.capture_screen`). -/
def producerWriteLock : Nat := constructApp.scFileLock

/-- The lock the worker acquires for a scan-and-delete cycle
(`with self.file_lock`, `watch.py:103`, inside `_perform_rolling_cleanup`). -/
def workerSweepLock : Nat := constructApp.rcFileLock

/-- The log lines that accompany a `failed_count` increment: the per-file
deletion-failure warning (`watch.py:132`) and the stat-error warning
(`watch.py:139`). -/
def failLog : LogEvent → Bool
  | .warnDeleteFailed _ => true
  | .warnStatError _ => true
  | _ => false

/-- The eligibility test the scan applies to a directory entry: image-name
suffix (`watch.py:112`) and observed mtime strictly below the cutoff
(`watch.py:125`).  Note there is no file-versus-directory test in the code. -/
def isEligible (cutoff : Int) (e : SweepEntry) : Bool :=
  isImageName e.name &&
    match e.statRes with
    | some m => decide (m < cutoff)
    | none => false

/-- A deletion environment in which every `os.remove` attempt raises
`FileNotFoundError` (the file no longer exists) and no stop signal is seen. -/
def vanishedFileEnv : DeleteEnv :=
  ⟨fun _ => false, fun _ => false, fun _ => .notFound⟩

/-- A deletion environment in which every `os.remove` attempt fails with a
persistent `OSError`/`PermissionError` (locked file, or a directory path),
with no stop signal. -/
def neverRemovableEnv : DeleteEnv :=
  ⟨fun _ => false, fun _ => false, fun _ => .ioError⟩

/-- A deletion environment in which the first `os.remove` succeeds. -/
def alwaysRemovableEnv : DeleteEnv :=
  ⟨fun _ => false, fun _ => false, fun _ => .removed⟩

/-- A candidate image file that vanished before the deletion attempt. -/
def vanishedEntry : SweepEntry :=
  ⟨"gone.jpg", false, some 0, vanishedFileEnv, false, false, false⟩

/-- A stale non-image file sitting in the managed directory. -/
def oldTextEntry : SweepEntry :=
  ⟨"old.txt", false, some 0, alwaysRemovableEnv, false, false, false⟩

/-- A stale image file that deletes cleanly. -/
def oldImageEntry : SweepEntry :=
  ⟨"shot_a.jpg", false, some 0, alwaysRemovableEnv, false, false, false⟩

/-- A fresh image file (mtime 950, later than any cutoff used with it). -/
def youngEntry : SweepEntry :=
  ⟨"new.jpg", false, some 950, alwaysRemovableEnv, false, false, false⟩

/-- A subdirectory whose name happens to end in an image extension;
`os.remove` on it raises `IsADirectoryError`, an `OSError`. -/
def imageNamedDir : SweepEntry :=
  ⟨"shots.png", true, some 0, neverRemovableEnv, false, false, false⟩

/-- A stale image file whose deletion keeps failing (locked). -/
def stuckEntry : SweepEntry :=
  ⟨"stuck.jpg", false, some 0, neverRemovableEnv, false, false, false⟩

/-- A stopped worker with the shared stop event clear and no other thread
active: a freshly constructed application before any capture starts. -/
def stoppedQuietState : SystemState :=
  ⟨false, false, 0, false, false, false⟩

/-- A stopped worker with a leftover stop signal set and the capture and
monitor flags on. -/
def freshSystemState : SystemState :=
  ⟨false, true, 0, false, true, true⟩

/-- A state with the worker loop, capture loop and resource monitor running. -/
def runningSystemState : SystemState :=
  ⟨true, false, 1, true, true, true⟩

/-- A worker cycle whose directory scan fails (`os.scandir` raises). -/
def failedScanCycle : CycleEnv := ⟨false, none, 1000, 100⟩

/-- A worker cycle over an empty (recreated) directory. -/
def emptyDirCycle : CycleEnv := ⟨false, some [], 2000, 100⟩

/-! Helper lemmas about the deletion executor and the scan loop. -/

/-- The retry loop never makes more `os.remove` calls than it has fuel. -/
theorem safeDeleteRun_le (env : DeleteEnv) :
    ∀ fuel a, (safeDeleteRun env fuel a).2 ≤ fuel := by
  intro fuel
  induction fuel with
  | zero => intro a; simp [safeDeleteRun]
  | succ n ih =>
    intro a
    simp only [safeDeleteRun]
    split
    · simp
    · split
      · simp
      · split
        · split
          · simp
          · have := ih (a + 1)
            omega
        · simp

/-- `_safe_delete_file` makes at most 3 `os.remove` attempts. -/
theorem deleteAttempts_le (env : DeleteEnv) : deleteAttempts env ≤ 3 :=
  safeDeleteRun_le env maxRetries 0

/-- With no stop signal and every attempt failing, the retry loop runs all 3
attempts and reports failure. -/
theorem safeDeleteRun_allfail (env : DeleteEnv)
    (hstop : ∀ k, env.stopCheck k = false) (hwait : ∀ k, env.waitStop k = false)
    (hfail : ∀ k, env.removeRes k ≠ .removed) :
    safeDeleteRun env 3 0 = (false, 3) := by
  have h0 := hstop 0; have h1 := hstop 1; have h2 := hstop 2
  have w0 := hwait 0; have w1 := hwait 1
  rcases hr0 : env.removeRes 0 with _ | _ | _ <;>
  rcases hr1 : env.removeRes 1 with _ | _ | _ <;>
  rcases hr2 : env.removeRes 2 with _ | _ | _ <;>
  first
    | exact absurd hr0 (hfail 0)
    | exact absurd hr1 (hfail 1)
    | exact absurd hr2 (hfail 2)
    | simp [safeDeleteRun, h0, h1, h2, w0, w1, hr0, hr1, hr2, maxRetries]

/-- Packaging of `safeDeleteRun_allfail` for `_safe_delete_file`. -/
theorem safe_delete_allfail (env : DeleteEnv)
    (hstop : ∀ k, env.stopCheck k = false) (hwait : ∀ k, env.waitStop k = false)
    (hfail : ∀ k, env.removeRes k ≠ .removed) :
    safe_delete_file env = false ∧ deleteAttempts env = 3 := by
  constructor
  · show (safeDeleteRun env maxRetries 0).1 = false
    rw [show maxRetries = 3 from rfl, safeDeleteRun_allfail env hstop hwait hfail]
  · show (safeDeleteRun env maxRetries 0).2 = 3
    rw [show maxRetries = 3 from rfl, safeDeleteRun_allfail env hstop hwait hfail]

/-- A stop signal visible at the first checkpoint ends the call before any
`os.remove` attempt. -/
theorem safe_delete_stop0 (env : DeleteEnv) (h : env.stopCheck 0 = true) :
    safe_delete_file env = false ∧ deleteAttempts env = 0 := by
  constructor <;> simp [safe_delete_file, deleteAttempts, maxRetries, safeDeleteRun, h]

/-- `failed_count` equals the number of per-file failure warnings in the log:
each increment of the counter is accompanied by exactly one such line. -/
theorem failed_eq_countP (cutoff : Int) (es : List SweepEntry) :
    (sweepEntries cutoff es).failed = (sweepEntries cutoff es).logs.countP failLog := by
  induction es with
  | nil => simp [sweepEntries]
  | cons e rest ih =>
    simp only [sweepEntries]
    split
    · simp
    · split
      · simp [SweepBody.seq, List.countP_append, List.countP_cons, failLog, ih]
      · split
        · simp
        · split
          · simp [SweepBody.seq, List.countP_append, List.countP_cons, failLog, ih,
              Nat.add_comm]
          · split <;> split <;> (try split) <;>
              simp [SweepBody.seq, List.countP_append, List.countP_cons, failLog, ih,
                Nat.add_comm]

/-- Every name the sweep removed belongs to a scanned entry whose observed
mtime was strictly below the cutoff. -/
theorem mem_deletedNames_sound (cutoff : Int) (es : List SweepEntry) (n : String)
    (hn : n ∈ (sweepEntries cutoff es).deletedNames) :
    ∃ e, e ∈ es ∧ e.name = n ∧ ∃ m, e.statRes = some m ∧ m < cutoff := by
  induction es with
  | nil => simp [sweepEntries] at hn
  | cons e rest ih =>
    simp only [sweepEntries] at hn
    split at hn
    · simp at hn
    · split at hn
      · simp only [SweepBody.seq, List.nil_append] at hn
        obtain ⟨x, hx, hrest⟩ := ih hn
        exact ⟨x, List.mem_cons_of_mem e hx, hrest⟩
      · split at hn
        · simp at hn
        · split at hn
          · simp only [SweepBody.seq, List.nil_append] at hn
            obtain ⟨x, hx, hrest⟩ := ih hn
            exact ⟨x, List.mem_cons_of_mem e hx, hrest⟩
          · rename_i m hsome
            split at hn
            · split at hn
              · split at hn
                · simp at hn
                  exact ⟨e, List.mem_cons_self e rest, hn.symm, m, hsome, by assumption⟩
                · simp at hn
              · simp at hn
            · split at hn
              · rename_i hold
                split at hn
                · simp only [SweepBody.seq, List.cons_append, List.nil_append,
                    List.singleton_append] at hn
                  rcases List.mem_cons.1 hn with h | h
                  · exact ⟨e, List.mem_cons_self e rest, h.symm, m, hsome, hold⟩
                  · obtain ⟨x, hx, hrest⟩ := ih h
                    exact ⟨x, List.mem_cons_of_mem e hx, hrest⟩
                · simp only [SweepBody.seq, List.nil_append] at hn
                  obtain ⟨x, hx, hrest⟩ := ih hn
                  exact ⟨x, List.mem_cons_of_mem e hx, hrest⟩
              · simp only [SweepBody.seq, List.nil_append] at hn
                obtain ⟨x, hx, hrest⟩ := ih hn
                exact ⟨x, List.mem_cons_of_mem e hx, hrest⟩

/-- In a sweep that observes no stop signal, an image-named entry whose
observed mtime is below the cutoff ends up removed or warned about. -/
theorem eligible_accounted (cutoff : Int) (es : List SweepEntry) (e : SweepEntry) (m : Int)
    (hmem : e ∈ es)
    (hns : ∀ x ∈ es, x.stopA = false ∧ x.stopB = false ∧ x.stopC = false)
    (himg : isImageName e.name = true) (hstat : e.statRes = some m) (hold : m < cutoff) :
    e.name ∈ (sweepEntries cutoff es).deletedNames ∨
    LogEvent.warnDeleteFailed e.name ∈ (sweepEntries cutoff es).logs := by
  revert hmem hns
  induction es with
  | nil => intro hmem _; cases hmem
  | cons x rest ih =>
    intro hmem hns
    obtain ⟨hA, hB, hC⟩ := hns x (List.mem_cons_self x rest)
    have hns2 : ∀ y ∈ rest, y.stopA = false ∧ y.stopB = false ∧ y.stopC = false :=
      fun y hy => hns y (List.mem_cons_of_mem x hy)
    rcases List.mem_cons.1 hmem with heq | hmem2
    · subst heq
      simp only [sweepEntries, hA, hB, hC, himg, hstat]
      by_cases hdel : safe_delete_file e.delEnv
      · left
        simp [SweepBody.seq, hdel, hold]
      · right
        simp [SweepBody.seq, hdel, hold]
    · have hrec := ih hmem2 hns2
      simp only [sweepEntries, hA, hB]
      by_cases himgx : isImageName x.name
      · simp only [himgx, Bool.not_true]
        cases hsx : x.statRes with
        | none =>
          simp only [SweepBody.seq]
          rcases hrec with h | h
          · left; simpa using h
          · right; simp [h]
        | some mx =>
          simp only [hC]
          rcases hrec with h | h
          · left; simp [SweepBody.seq]; right; exact h
          · right; simp [SweepBody.seq]; right; exact h
      · simp only [himgx, Bool.not_false]
        simp only [SweepBody.seq]
        rcases hrec with h | h
        · left; simpa using h
        · right; simp [h]

/-- In a sweep that observes no stop signal, the deletion attempts are exactly
the image-named entries whose observed mtime is below the cutoff, in
enumeration order. -/
theorem scan_selection (cutoff : Int) (es : List SweepEntry)
    (hns : ∀ x ∈ es, x.stopA = false ∧ x.stopB = false ∧ x.stopC = false) :
    (sweepEntries cutoff es).attempted
      = (es.filter (isEligible cutoff)).map SweepEntry.name := by
  induction es with
  | nil => simp [sweepEntries]
  | cons x rest ih =>
    obtain ⟨hA, hB, hC⟩ := hns x (List.mem_cons_self x rest)
    have hns2 : ∀ y ∈ rest, y.stopA = false ∧ y.stopB = false ∧ y.stopC = false :=
      fun y hy => hns y (List.mem_cons_of_mem x hy)
    have ih2 := ih hns2
    simp only [sweepEntries, hA, hB, hC]
    by_cases himgx : isImageName x.name
    · cases hsx : x.statRes with
      | none =>
        simp [himgx, hsx, SweepBody.seq, ih2, List.filter_cons, isEligible]
      | some mx =>
        by_cases hold : mx < cutoff
        · by_cases hdel : safe_delete_file x.delEnv <;>
            simp [himgx, hsx, hold, hdel, SweepBody.seq, ih2, List.filter_cons, isEligible]
        · simp [himgx, hsx, hold, SweepBody.seq, ih2, List.filter_cons, isEligible]
    · simp [himgx, SweepBody.seq, ih2, List.filter_cons, isEligible]

/-- A candidate whose deletion fails contributes one failure (with its warning
line) and the loop then processes the remaining entries unchanged. -/
theorem stuck_file_isolated (cutoff : Int) (e : SweepEntry) (rest : List SweepEntry) (m : Int)
    (hA : e.stopA = false) (hB : e.stopB = false) (hC : e.stopC = false)
    (himg : isImageName e.name = true) (hstat : e.statRes = some m) (hold : m < cutoff)
    (hdel : safe_delete_file e.delEnv = false) :
    sweepEntries cutoff (e :: rest) =
      SweepBody.seq ⟨0, 1, [], [e.name], [.warnDeleteFailed e.name]⟩
        (sweepEntries cutoff rest) := by
  simp [sweepEntries, hA, hB, hC, himg, hstat, hold, hdel]

/-! Claim theorems. -/

/-- Claim C1 (refuted by the code, which contradicts its own race-prevention
comments): the producer and the retention worker do NOT acquire one shared
mutual-exclusion primitive.  `ScreenCapture.__init__` and
`RollingCleanup.__init__` each allocate their own `threading.Lock()`
(`watch.py:217`, `watch.py:26`); only the stop event is handed to the worker at
construction (`watch.py:823`).  Hence the lock the capture write acquires
(`watch.py:1148`) and the lock the sweep acquires (`watch.py:103`) are
distinct objects, and a sweep and a write can be concurrent. -/
theorem producer_and_worker_locks_distinct :
    producerWriteLock ≠ workerSweepLock ∧
    constructApp.rcStopEvent = constructApp.scStopEvent := by
  decide

/-- Claim C2, counterexample: a candidate file that no longer exists at every
deletion attempt (each `os.remove` raises `FileNotFoundError`) is not treated
as success: `_safe_delete_file` returns false, the sweep counts the file under
`failed` (not under `deleted`), and a warning is logged. -/
theorem vanished_file_counted_failed :
    safe_delete_file vanishedFileEnv = false ∧
    (perform_rolling_cleanup (some [vanishedEntry]) 1000 100).deleted = 0 ∧
    (perform_rolling_cleanup (some [vanishedEntry]) 1000 100).failed = 1 ∧
    LogEvent.warnDeleteFailed vanishedEntry.name ∈
      (perform_rolling_cleanup (some [vanishedEntry]) 1000 100).logs := by
  decide

/-- Claim C2 as amended: a candidate file that no longer exists at deletion
time is handled like any other deletion error — the `FileNotFoundError` is
caught by the same except clause, retried through all 3 attempts, and the call
finally reports failure (so the sweep counts the file under `failed`). -/
theorem notfound_treated_as_failure (env : DeleteEnv)
    (hstop : ∀ k, env.stopCheck k = false) (hwait : ∀ k, env.waitStop k = false)
    (hnf : ∀ k, env.removeRes k = .notFound) :
    safe_delete_file env = false ∧ deleteAttempts env = 3 :=
  safe_delete_allfail env hstop hwait (fun k => by simp [hnf k])

/-- Witness for `notfound_treated_as_failure` at the concrete vanished-file
environment. -/
theorem notfound_treated_as_failure_witness :
    safe_delete_file vanishedFileEnv = false ∧ deleteAttempts vanishedFileEnv = 3 :=
  notfound_treated_as_failure vanishedFileEnv (fun _ => rfl) (fun _ => rfl) (fun _ => rfl)

/-- Claim C3, counterexample: a non-image file whose mtime (0) is older than
the cutoff (1000 − 100) survives a completed, uncancelled sweep without being
deleted and without being counted under `failed` — the claim's unrestricted
quantification over files fails; only image-named entries are processed. -/
theorem old_nonimage_file_silently_skipped :
    oldTextEntry.statRes = some 0 ∧ ((0 : Int) < 1000 - 100) ∧
    (perform_rolling_cleanup (some [oldTextEntry]) 1000 100).deleted = 0 ∧
    (perform_rolling_cleanup (some [oldTextEntry]) 1000 100).failed = 0 ∧
    (perform_rolling_cleanup (some [oldTextEntry]) 1000 100).deletedNames = [] := by
  decide

/-- Claim C3 as amended: in a sweep whose scan succeeds and in which no
cancellation signal is observed, every image-named entry whose observed mtime
is strictly older than `now − maxAgeSeconds` is either deleted or explicitly
counted under `failed` (each failure carries a warning log naming the file,
and `failed` equals the number of such warnings). -/
theorem eligible_image_files_accounted (es : List SweepEntry) (now age : Int)
    (e : SweepEntry) (m : Int) (hmem : e ∈ es)
    (hns : ∀ x ∈ es, x.stopA = false ∧ x.stopB = false ∧ x.stopC = false)
    (himg : isImageName e.name = true) (hstat : e.statRes = some m)
    (hold : m < now - age) :
    (e.name ∈ (perform_rolling_cleanup (some es) now age).deletedNames ∨
      LogEvent.warnDeleteFailed e.name ∈
        (perform_rolling_cleanup (some es) now age).logs) ∧
    (perform_rolling_cleanup (some es) now age).failed
      = (perform_rolling_cleanup (some es) now age).logs.countP failLog := by
  have hnames : (perform_rolling_cleanup (some es) now age).deletedNames
      = (sweepEntries (now - age) es).deletedNames := rfl
  have hfailed : (perform_rolling_cleanup (some es) now age).failed
      = (sweepEntries (now - age) es).failed := rfl
  have hlogs : (perform_rolling_cleanup (some es) now age).logs
      = LogEvent.infoStart :: ((sweepEntries (now - age) es).logs ++
          (if 0 < (sweepEntries (now - age) es).deleted
              || 0 < (sweepEntries (now - age) es).failed
            then [LogEvent.infoSummary (sweepEntries (now - age) es).deleted
                    (sweepEntries (now - age) es).failed]
            else [LogEvent.debugNothingToDelete])) := rfl
  constructor
  · rcases eligible_accounted (now - age) es e m hmem hns himg hstat hold with h | h
    · rw [hnames]; exact Or.inl h
    · right
      rw [hlogs]
      exact List.mem_cons_of_mem _ (List.mem_append_left _ h)
  · have htail : (if 0 < (sweepEntries (now - age) es).deleted
          || 0 < (sweepEntries (now - age) es).failed
        then [LogEvent.infoSummary (sweepEntries (now - age) es).deleted
                (sweepEntries (now - age) es).failed]
        else [LogEvent.debugNothingToDelete]).countP failLog = 0 := by
      split <;> simp [failLog]
    rw [hfailed, hlogs, List.countP_cons, List.countP_append, htail]
    simp only [failLog, Bool.false_eq_true, if_false, Nat.add_zero]
    exact failed_eq_countP (now - age) es

/-- Witness for `eligible_image_files_accounted` at a one-file directory
holding a stale image file. -/
theorem eligible_image_files_accounted_witness :
    (oldImageEntry.name ∈
        (perform_rolling_cleanup (some [oldImageEntry]) 1000 100).deletedNames ∨
      LogEvent.warnDeleteFailed oldImageEntry.name ∈
        (perform_rolling_cleanup (some [oldImageEntry]) 1000 100).logs) ∧
    (perform_rolling_cleanup (some [oldImageEntry]) 1000 100).failed
      = (perform_rolling_cleanup (some [oldImageEntry]) 1000 100).logs.countP failLog :=
  eligible_image_files_accounted [oldImageEntry] 1000 100 oldImageEntry 0
    (List.mem_cons_self _ _)
    (by intro x hx; rw [List.mem_singleton] at hx; subst hx; exact ⟨rfl, rfl, rfl⟩)
    (by decide) rfl (by decide)

/-- Claim C4: a sweep never deletes a file whose observed modification time is
newer than or equal to `now − maxAgeSeconds`: only entries observed strictly
older than the cutoff ever reach `os.remove` (`watch.py:125`). -/
theorem young_files_never_deleted (es : List SweepEntry) (now age : Int) (n : String)
    (hyoung : ∀ e ∈ es, e.name = n → ∀ m, e.statRes = some m → now - age ≤ m) :
    n ∉ (perform_rolling_cleanup (some es) now age).deletedNames := by
  intro hn
  have hnames : (perform_rolling_cleanup (some es) now age).deletedNames
      = (sweepEntries (now - age) es).deletedNames := rfl
  rw [hnames] at hn
  obtain ⟨e, he, hname, m, hm, hlt⟩ := mem_deletedNames_sound (now - age) es n hn
  exact absurd hlt (not_lt.2 (hyoung e he hname m hm))

/-- Witness for `young_files_never_deleted` at a one-file directory holding a
fresh image file (mtime 950 against cutoff 900). -/
theorem young_files_never_deleted_witness :
    youngEntry.name ∉
      (perform_rolling_cleanup (some [youngEntry]) 1000 100).deletedNames :=
  young_files_never_deleted [youngEntry] 1000 100 youngEntry.name (by
    intro e he hname m hm
    rw [List.mem_singleton] at he
    subst he
    have h2 : some (950 : Int) = some m := hm
    injection h2 with h3
    omega)

/-- Claim C5, counterexample: a subdirectory whose name ends in an image
extension is NOT skipped — the scan has no file-versus-directory test
(`watch.py:112` looks only at the name), so the stale directory is selected,
its deletion is attempted (`os.remove` raising `IsADirectoryError`), and it is
counted under `failed`. -/
theorem imagenamed_subdir_not_skipped :
    imageNamedDir.isDir = true ∧
    imageNamedDir.name ∈
      (perform_rolling_cleanup (some [imageNamedDir]) 1000 100).attempted ∧
    (perform_rolling_cleanup (some [imageNamedDir]) 1000 100).failed = 1 := by
  decide

/-- Claim C5 as amended: in an uncancelled sweep whose scan succeeds, the scan
selects exactly the direct entries — files and subdirectories alike, there is
no file-type check — whose name ends in a known image extension and whose
observed modification time is strictly older than `now − maxAgeSeconds`; all
other entries are skipped, and the traversal is non-recursive (it visits only
the direct entries `os.scandir` yields). -/
theorem scan_selects_by_extension_and_age (now age : Int) (es : List SweepEntry)
    (hns : ∀ x ∈ es, x.stopA = false ∧ x.stopB = false ∧ x.stopC = false) :
    (perform_rolling_cleanup (some es) now age).attempted
      = (es.filter (isEligible (now - age))).map SweepEntry.name :=
  scan_selection (now - age) es hns

/-- Witness for `scan_selects_by_extension_and_age` on a directory holding an
image-named subdirectory and a stale text file. -/
theorem scan_selects_by_extension_and_age_witness :
    (perform_rolling_cleanup (some [imageNamedDir, oldTextEntry]) 1000 100).attempted
      = ([imageNamedDir, oldTextEntry].filter (isEligible (1000 - 100))).map
          SweepEntry.name :=
  scan_selects_by_extension_and_age 1000 100 [imageNamedDir, oldTextEntry] (by
    intro x hx
    rw [List.mem_cons, List.mem_singleton] at hx
    rcases hx with h | h <;> subst h <;> exact ⟨rfl, rfl, rfl⟩)

/-- Claim C6: deletion of a candidate is attempted up to exactly 3 times
(`max_retries = 3`) separated by a 1-second wait (`retry_delay = 1`) on the
stop event; a stop signal at a checkpoint ends the call early; if every
attempt fails the call reports failure, the sweep counts the file under
`failed` with a warning log, and the remaining candidates are processed
exactly as they would have been — one stuck file never aborts the cycle. -/
theorem delete_retry_budget_and_sweep_isolation (e : SweepEntry)
    (rest : List SweepEntry) (cutoff m : Int)
    (hA : e.stopA = false) (hB : e.stopB = false) (hC : e.stopC = false)
    (himg : isImageName e.name = true) (hstat : e.statRes = some m)
    (hold : m < cutoff)
    (hstop : ∀ k, e.delEnv.stopCheck k = false)
    (hwait : ∀ k, e.delEnv.waitStop k = false)
    (hfail : ∀ k, e.delEnv.removeRes k ≠ .removed) :
    maxRetries = 3 ∧ retryDelay = 1 ∧
    deleteAttempts e.delEnv = 3 ∧
    safe_delete_file e.delEnv = false ∧
    sweepEntries cutoff (e :: rest) =
      SweepBody.seq ⟨0, 1, [], [e.name], [.warnDeleteFailed e.name]⟩
        (sweepEntries cutoff rest) ∧
    (∀ env : DeleteEnv, deleteAttempts env ≤ 3) ∧
    (∀ env : DeleteEnv, env.stopCheck 0 = true →
      safe_delete_file env = false ∧ deleteAttempts env = 0) := by
  obtain ⟨hsdf, hatt⟩ := safe_delete_allfail e.delEnv hstop hwait hfail
  exact ⟨rfl, rfl, hatt, hsdf,
    stuck_file_isolated cutoff e rest m hA hB hC himg hstat hold hsdf,
    deleteAttempts_le, safe_delete_stop0⟩

/-- Witness for `delete_retry_budget_and_sweep_isolation` on a locked stale
file followed by a deletable stale file. -/
theorem delete_retry_budget_and_sweep_isolation_witness :
    maxRetries = 3 ∧ retryDelay = 1 ∧
    deleteAttempts stuckEntry.delEnv = 3 ∧
    safe_delete_file stuckEntry.delEnv = false ∧
    sweepEntries 900 (stuckEntry :: [oldImageEntry]) =
      SweepBody.seq ⟨0, 1, [], [stuckEntry.name], [.warnDeleteFailed stuckEntry.name]⟩
        (sweepEntries 900 [oldImageEntry]) ∧
    (∀ env : DeleteEnv, deleteAttempts env ≤ 3) ∧
    (∀ env : DeleteEnv, env.stopCheck 0 = true →
      safe_delete_file env = false ∧ deleteAttempts env = 0) :=
  delete_retry_budget_and_sweep_isolation stuckEntry [oldImageEntry] 900 0
    rfl rfl rfl (by decide) rfl (by decide)
    (fun _ => rfl) (fun _ => rfl) (fun _ h => RemoveResult.noConfusion h)

/-- Claim C7, counterexample: calling `stop()` while the worker is already
stopped is not a no-op — `RollingCleanup.stop` has no already-stopped guard
(`watch.py:41-45`), so it still sets the shared cancellation signal, which was
clear before the call. -/
theorem stop_when_stopped_not_noop :
    RollingCleanup.stop true stoppedQuietState ≠ stoppedQuietState ∧
    stoppedQuietState.stopEventSet = false ∧
    (RollingCleanup.stop true stoppedQuietState).stopEventSet = true := by
  decide

/-- Claim C7 as amended: calling `stop()` while the worker is stopped (thread
not alive) sets the shared cancellation signal and changes nothing else
(`is_running` stays false, no thread is started or joined); it also logs a
stop message.  It is not a state-preserving no-op. -/
theorem stop_when_stopped_only_sets_event (j : Bool) (s : SystemState)
    (h1 : s.is_running = false) (h2 : s.threadAlive = false) :
    RollingCleanup.stop j s =
      ⟨s.is_running, true, s.threadsStarted, s.threadAlive,
        s.is_capturing, s.monitorEnabled⟩ := by
  cases s
  simp_all [RollingCleanup.stop]

/-- Witness for `stop_when_stopped_only_sets_event` at the quiet stopped
state. -/
theorem stop_when_stopped_only_sets_event_witness :
    RollingCleanup.stop false stoppedQuietState =
      ⟨stoppedQuietState.is_running, true, stoppedQuietState.threadsStarted,
        stoppedQuietState.threadAlive, stoppedQuietState.is_capturing,
        stoppedQuietState.monitorEnabled⟩ :=
  stop_when_stopped_only_sets_event false stoppedQuietState rfl rfl

/-- Claim C8: calling `start()` twice without an intervening `stop()` launches
exactly one worker thread: the first call transitions to running, and the
second call hits the `if self.is_running: return` guard (`watch.py:30-31`) and
changes nothing — no second thread, no clearing of the cancellation signal. -/
theorem start_twice_single_thread (s : SystemState) (h : s.is_running = false) :
    (RollingCleanup.start s).is_running = true ∧
    RollingCleanup.start (RollingCleanup.start s) = RollingCleanup.start s ∧
    (RollingCleanup.start (RollingCleanup.start s)).threadsStarted
      = s.threadsStarted + 1 ∧
    (RollingCleanup.start (RollingCleanup.start s)).stopEventSet = false := by
  simp [RollingCleanup.start, h]

/-- Witness for `start_twice_single_thread` at a stopped state with a leftover
stop signal. -/
theorem start_twice_single_thread_witness :
    (RollingCleanup.start freshSystemState).is_running = true ∧
    RollingCleanup.start (RollingCleanup.start freshSystemState)
      = RollingCleanup.start freshSystemState ∧
    (RollingCleanup.start (RollingCleanup.start freshSystemState)).threadsStarted
      = freshSystemState.threadsStarted + 1 ∧
    (RollingCleanup.start (RollingCleanup.start freshSystemState)).stopEventSet
      = false :=
  start_twice_single_thread freshSystemState rfl

/-- Claim C9: when the directory cannot be enumerated, the sweep aborts with a
scan-failure log and touches no file (no deletions, zero counters), and the
worker loop continues: the next scheduled cycle runs its sweep exactly as it
would from a clean state. -/
theorem scan_failure_isolated_per_cycle (c1 c2 : CycleEnv) (rest : List CycleEnv)
    (h1 : c1.entries = none) (hw1 : c1.stopDuringWait = false)
    (hw2 : c2.stopDuringWait = false) :
    (perform_rolling_cleanup c1.entries c1.current_time c1.cleanup_age_seconds).deletedNames
      = [] ∧
    (perform_rolling_cleanup c1.entries c1.current_time c1.cleanup_age_seconds).deleted
      = 0 ∧
    (perform_rolling_cleanup c1.entries c1.current_time c1.cleanup_age_seconds).failed
      = 0 ∧
    (perform_rolling_cleanup c1.entries c1.current_time c1.cleanup_age_seconds).scanFailed
      = true ∧
    LogEvent.errorScanFailed ∈
      (perform_rolling_cleanup c1.entries c1.current_time c1.cleanup_age_seconds).logs ∧
    cleanup_worker (c1 :: c2 :: rest) =
      perform_rolling_cleanup c1.entries c1.current_time c1.cleanup_age_seconds ::
        perform_rolling_cleanup c2.entries c2.current_time c2.cleanup_age_seconds ::
          cleanup_worker rest := by
  simp [cleanup_worker, hw1, hw2, h1, perform_rolling_cleanup]

/-- Witness for `scan_failure_isolated_per_cycle`: a failed-scan cycle followed
by a cycle over an empty directory. -/
theorem scan_failure_isolated_per_cycle_witness :
    (perform_rolling_cleanup failedScanCycle.entries failedScanCycle.current_time
        failedScanCycle.cleanup_age_seconds).deletedNames = [] ∧
    (perform_rolling_cleanup failedScanCycle.entries failedScanCycle.current_time
        failedScanCycle.cleanup_age_seconds).deleted = 0 ∧
    (perform_rolling_cleanup failedScanCycle.entries failedScanCycle.current_time
        failedScanCycle.cleanup_age_seconds).failed = 0 ∧
    (perform_rolling_cleanup failedScanCycle.entries failedScanCycle.current_time
        failedScanCycle.cleanup_age_seconds).scanFailed = true ∧
    LogEvent.errorScanFailed ∈
      (perform_rolling_cleanup failedScanCycle.entries failedScanCycle.current_time
        failedScanCycle.cleanup_age_seconds).logs ∧
    cleanup_worker (failedScanCycle :: emptyDirCycle :: []) =
      perform_rolling_cleanup failedScanCycle.entries failedScanCycle.current_time
          failedScanCycle.cleanup_age_seconds ::
        perform_rolling_cleanup emptyDirCycle.entries emptyDirCycle.current_time
            emptyDirCycle.cleanup_age_seconds ::
          cleanup_worker [] :=
  scan_failure_isolated_per_cycle failedScanCycle emptyDirCycle [] rfl rfl rfl

/-- Claim C10: the cancellation signal the worker polls is the externally
supplied event shared with the capture loop and the resource monitor:
`RollingCleanup.stop` sets it, which also falsifies the run conditions of the
capture loop and the resource monitor; `RollingCleanup.start` (from a stopped
worker) clears it, wiping any stop request pending for those threads.  The
event objects stored by `ScreenCapture` and `RollingCleanup` are one and the
same allocation. -/
theorem stop_event_shared_across_threads (j : Bool) (s : SystemState) :
    constructApp.rcStopEvent = constructApp.scStopEvent ∧
    (RollingCleanup.stop j s).stopEventSet = true ∧
    captureLoopRuns (RollingCleanup.stop j s) = false ∧
    resourceMonitorRuns (RollingCleanup.stop j s) = false ∧
    (s.is_running = false → (RollingCleanup.start s).stopEventSet = false) := by
  refine ⟨rfl, rfl, ?_, ?_, ?_⟩
  · simp [captureLoopRuns, RollingCleanup.stop]
  · simp [resourceMonitorRuns, RollingCleanup.stop]
  · intro h; simp [RollingCleanup.start, h]

/-- Witness for `stop_event_shared_across_threads`: stopping a fully running
system halts the capture loop condition; starting from a stopped state clears
a leftover signal. -/
theorem stop_event_shared_across_threads_witness :
    (RollingCleanup.stop true runningSystemState).stopEventSet = true ∧
    captureLoopRuns (RollingCleanup.stop true runningSystemState) = false ∧
    (RollingCleanup.start freshSystemState).stopEventSet = false :=
  ⟨(stop_event_shared_across_threads true runningSystemState).2.1,
   (stop_event_shared_across_threads true runningSystemState).2.2.1,
   (stop_event_shared_across_threads true freshSystemState).2.2.2.2 rfl⟩
